import Mathlib

/-!
Shallow embedding of the win32 port of the leveldb `Env` abstraction
(`util/env_win.cc`) and proofs about its file-capability operations.

The embedding translates each member function of `Win32Env`,
`Win32FileBase`, `Win32SequentialFile`, `Win32RandomAccessFile` and
`Win32WritableFile` into a Lean function.  The OS primitives the code
calls (`CreateFile`, `SetFilePointer`, `ReadFile`, `WriteFile`,
`FlushFileBuffers`, `FormatMessage`, `FindFirstFile`/`FindNextFile`) are
modelled from their documented win32 contracts; their outcomes that the
code merely observes (format-message text, write success flags,
directory listings) are passed in as explicit inputs, so every theorem
quantifies over the possible behaviours of the environment.
-/

namespace leveldb

/-- Outcome of every fallible operation: success (`Status::OK()`), or an
I/O failure carrying the context string (the path) and the system detail
message (`Status::IOError(context, message)`). -/
inductive Status where
  | ok : Status
  | ioError (context : String) (message : String) : Status
deriving DecidableEq

/-- Outcome of the win32 `FormatMessage` call made by `Win32IOError`:
`none` when the OS has no message text for the code (`bOK == FALSE`,
no buffer allocated), `some m` when the OS allocated a buffer holding
the message text `m`. -/
abbrev FormatMessageResult := Option String

/-- Behaviour of the OS message-resolution facility: the
`FormatMessage` outcome for each error code. -/
abbrev FmtEnv := Int → FormatMessageResult

/-- Embedding of `Win32IOError` (env_win.cc lines 182-210).
The second component records whether `LocalFree` was called on the
OS-allocated message buffer before returning.  When `FormatMessage`
finds no text, the code formats the fallback
`snprintf(buf, MAX, "unknow system error %d", getLastErrorCode)`
(the string is spelled exactly as in the source). -/
def Win32IOErrorEx (context : String) (getLastErrorCode : Int)
    (formatted : FormatMessageResult) : Status × Bool :=
  match formatted with
  | none =>
    (Status.ioError context ("unknow system error " ++ toString getLastErrorCode), false)
  | some lpErrorText =>
    (Status.ioError context lpErrorText, true)

/-- `Win32IOError` as its callers observe it: the returned `Status`. -/
def Win32IOError (context : String) (getLastErrorCode : Int)
    (formatted : FormatMessageResult) : Status :=
  (Win32IOErrorEx context getLastErrorCode formatted).1

/-- `Win32IOError` never returns a success status (both branches build
`Status::IOError`). -/
theorem Win32IOError_ne_ok (context : String) (code : Int)
    (formatted : FormatMessageResult) :
    Win32IOError context code formatted ≠ Status.ok := by
  cases formatted <;> simp [Win32IOError, Win32IOErrorEx]

/-- The `dwMoveMethod` argument of `SetFilePointer`. -/
inductive MoveMethod where
  | FILE_BEGIN : MoveMethod
  | FILE_CURRENT : MoveMethod
  | FILE_END : MoveMethod
deriving DecidableEq

/-- State of an open win32 file handle as far as the cursor-moving and
reading primitives observe it: the current cursor position, the file
size, and the thread's last-error value read back by `GetLastError`. -/
structure OsFile where
  pos : Nat
  size : Nat
  lastError : Int
deriving DecidableEq

/-- `LODWORD(l) = (DWORD)(l & 0xffffffff)` from the source. -/
def lodword (l : Nat) : Nat := l % 2 ^ 32

/-- `HIDWORD(l) = (DWORD)((l >> 32) & 0xffffffff)` from the source. -/
def hidword (l : Nat) : Nat := (l / 2 ^ 32) % 2 ^ 32

/-- Two's-complement reading of a 64-bit word as a signed integer. -/
def toSigned64 (u : Nat) : Int :=
  if u % 2 ^ 64 < 2 ^ 63 then ((u % 2 ^ 64 : Nat) : Int)
  else ((u % 2 ^ 64 : Nat) : Int) - 2 ^ 64

/-- The win32 contract: when `lpDistanceToMoveHigh` is non-null, the
high and low dwords form a single 64-bit signed distance. -/
def joinDwords (hi lo : Nat) : Int :=
  toSigned64 ((hi % 2 ^ 32) * 2 ^ 32 + lo % 2 ^ 32)

/-- The failure return value of `SetFilePointer`: `0xFFFFFFFF`. -/
def INVALID_SET_FILE_POINTER : Nat := 4294967295

/-- `ERROR_NEGATIVE_SEEK`, the last-error code `SetFilePointer` sets
when asked to move the cursor before the start of the file. -/
def ERROR_NEGATIVE_SEEK : Int := 131

/-- Model of the win32 `SetFilePointer` primitive, from its documented
contract: the new position is the distance added to the base selected
by `dwMoveMethod` (start of file, current position, or end of file).
Moving beyond end-of-file is allowed and is NOT clamped; only a move to
a negative position fails.  On success the return value is the low
dword of the new position (which is `0` whenever the new position is a
multiple of `2^32` — in particular position `0`); on failure the return
value is `INVALID_SET_FILE_POINTER` and the position is unchanged. -/
def SetFilePointerOS (f : OsFile) (lDistanceToMove : Nat)
    (lpDistanceToMoveHigh : Nat) (dwMoveMethod : MoveMethod) : OsFile × Nat :=
  let base : Int :=
    match dwMoveMethod with
    | MoveMethod.FILE_BEGIN => 0
    | MoveMethod.FILE_CURRENT => (f.pos : Int)
    | MoveMethod.FILE_END => (f.size : Int)
  let newPos : Int := base + joinDwords lpDistanceToMoveHigh lDistanceToMove
  if newPos < 0 then
    ({ f with lastError := ERROR_NEGATIVE_SEEK }, INVALID_SET_FILE_POINTER)
  else
    ({ f with pos := newPos.toNat }, newPos.toNat % 2 ^ 32)

/-- Embedding of `Win32FileBase::_apiSetFilePointer` (env_win.cc lines
237-254): split the 64-bit offset into low/high dwords, call
`SetFilePointer`, and treat a return value equal to `FALSE` (that is,
`0`) as failure, translating `GetLastError()` through `Win32IOError`
with the stored filename as context; otherwise return `Status::OK()`. -/
def apiSetFilePointer (fmt : FmtEnv) (filename : String) (f : OsFile)
    (offset : Nat) (moveMethod : MoveMethod) : OsFile × Status :=
  let distanceToMove := lodword offset
  let distanceToMoveHigh := hidword offset
  let r := SetFilePointerOS f distanceToMove distanceToMoveHigh moveMethod
  if r.2 = 0 then
    (r.1, Win32IOError filename r.1.lastError (fmt r.1.lastError))
  else
    (r.1, Status.ok)

/-- Embedding of `Win32SequentialFile::Skip` (env_win.cc lines 298-301):
`return _apiSetFilePointer(n, FILE_CURRENT)`. -/
def Win32SequentialFile_Skip (fmt : FmtEnv) (filename : String)
    (f : OsFile) (n : Nat) : OsFile × Status :=
  apiSetFilePointer fmt filename f n MoveMethod.FILE_CURRENT

/-- Model of the win32 `ReadFile` primitive on a synchronous handle,
from its documented contract: on success (`readOk = true`, the
environment's choice) it reads `min n (size - pos)` bytes from the
cursor, advances the cursor by that amount, and reports the count; a
read at or past end-of-file succeeds with `0` bytes.  On an injected
failure it reports `FALSE` and sets a last error. -/
def ReadFileOS (f : OsFile) (n : Nat) (readOk : Bool) : OsFile × Bool × Nat :=
  if readOk then
    let bytesRead := min n (f.size - f.pos)
    ({ f with pos := f.pos + bytesRead }, true, bytesRead)
  else
    ({ f with lastError := 5 }, false, 0)

/-- Observable events of one `Win32RandomAccessFile::Read` call:
acquiring/releasing the mutex `mu_`, the cursor reposition, and the
`ReadFile` call. -/
inductive RafEvent where
  | lock : RafEvent
  | unlock : RafEvent
  | setPointer (offset : Nat) (method : MoveMethod) : RafEvent
  | readCall : RafEvent
deriving DecidableEq

/-- Embedding of `Win32RandomAccessFile::Read` (env_win.cc lines
326-356).  Mirrors the source's control flow: `mu_.Lock()`; reposition
to `offset` from `FILE_BEGIN`; on reposition failure `mu_.Unlock()` and
return the status; otherwise `ReadFile` (the byte count is truncated to
a `DWORD`), then `mu_.Unlock()`, then check the read's return code.
Returns the final file state, the status, the number of bytes placed in
the result slice (`none` on error paths), and the ordered event
trace. -/
def Win32RandomAccessFile_Read (fmt : FmtEnv) (filename : String)
    (f : OsFile) (offset : Nat) (n : Nat) (readOk : Bool) :
    OsFile × Status × Option Nat × List RafEvent :=
  let r1 := apiSetFilePointer fmt filename f offset MoveMethod.FILE_BEGIN
  if r1.2 = Status.ok then
    let r2 := ReadFileOS r1.1 (n % 2 ^ 32) readOk
    if r2.2.1 = false then
      (r2.1, Win32IOError filename r2.1.lastError (fmt r2.1.lastError), none,
        [RafEvent.lock, RafEvent.setPointer offset MoveMethod.FILE_BEGIN,
         RafEvent.readCall, RafEvent.unlock])
    else
      (r2.1, Status.ok, some r2.2.2,
        [RafEvent.lock, RafEvent.setPointer offset MoveMethod.FILE_BEGIN,
         RafEvent.readCall, RafEvent.unlock])
  else
    (r1.1, r1.2, none,
      [RafEvent.lock, RafEvent.setPointer offset MoveMethod.FILE_BEGIN,
       RafEvent.unlock])

/-- Embedding of `Win32WritableFile::Append` (env_win.cc lines 374-390).
The environment's `WriteFile` outcome is injected as the pair
`(retCode, numberOfBytesWritten)` plus the last-error code for the
failure branch.  The source checks ONLY `retCode == FALSE`; the
reported `numberOfBytesWritten` is never compared against
`data.size()`. -/
def Win32WritableFile_Append (fmt : FmtEnv) (filename : String)
    (dataSize : Nat) (retCode : Bool) (numberOfBytesWritten : Nat)
    (errCode : Int) : Status :=
  if retCode = false then
    Win32IOError filename errCode (fmt errCode)
  else
    Status.ok

/-- `INVALID_HANDLE_VALUE`, the win32 sentinel for an invalid handle
(numerically `(HANDLE)-1`). -/
def INVALID_HANDLE_VALUE : Int := -1

/-- Embedding of `Win32WritableFile::Close` (env_win.cc lines 392-401).
Input: the current `hFile_` value.  Output: the new `hFile_` value, the
returned status, and whether `CloseHandle` was invoked.  The source
tests `if (hFile_ == INVALID_HANDLE_VALUE)` and only inside that branch
calls `CloseHandle(hFile_)` and assigns `hFile_ =
INVALID_HANDLE_VALUE`; in every case it returns `Status::OK()`. -/
def Win32WritableFile_Close (hFile : Int) : Int × Status × Bool :=
  if hFile = INVALID_HANDLE_VALUE then
    (INVALID_HANDLE_VALUE, Status.ok, true)
  else
    (hFile, Status.ok, false)

/-- Embedding of `Win32WritableFile::Sync` (env_win.cc lines 408-411).
Input: whether the `FlushFileBuffers` call succeeds (the environment's
choice).  Output: the returned status and whether `FlushFileBuffers`
was invoked.  The source calls the primitive, discards its `BOOL`
result, and returns `Status::OK()`. -/
def Win32WritableFile_Sync (flushFileBuffersOk : Bool) : Status × Bool :=
  (Status.ok, true)

/-- `ERROR_FILE_NOT_FOUND`, the last-error code `CreateFile` with
`OPEN_EXISTING` sets when the named file does not exist. -/
def ERROR_FILE_NOT_FOUND : Int := 2

/-- The `dwCreationDisposition` argument of `CreateFile` (the two values
relevant here). -/
inductive CreationDisposition where
  | OPEN_EXISTING : CreationDisposition
  | CREATE_ALWAYS : CreationDisposition
deriving DecidableEq

/-- Model of the win32 `CreateFile` primitive restricted to what the
claims observe, from its documented contract.  The file at the path is
`none` (absent) or `some contents`.  `OPEN_EXISTING` opens the file
only if it exists, leaving its contents untouched, and fails with
`ERROR_FILE_NOT_FOUND` otherwise; `CREATE_ALWAYS` creates the file or
truncates an existing one to empty.  Returns (handle obtained?, file
after the call, last-error code). -/
def CreateFileOS (disposition : CreationDisposition)
    (file : Option (List Nat)) : Bool × Option (List Nat) × Int :=
  match disposition, file with
  | CreationDisposition.OPEN_EXISTING, some contents => (true, some contents, 0)
  | CreationDisposition.OPEN_EXISTING, none => (false, none, ERROR_FILE_NOT_FOUND)
  | CreationDisposition.CREATE_ALWAYS, _ => (true, some [], 0)

/-- Embedding of `Win32Env::NewWritableFile` (env_win.cc lines 490-515).
`*result = NULL`; then `CreateFile(fname, GENERIC_READ|GENERIC_WRITE,
FILE_SHARE_READ, NULL, OPEN_EXISTING, ...)` — the source passes
`OPEN_EXISTING` as the creation disposition.  On an invalid handle,
translate `GetLastError()`; otherwise store a new writer and return
`Status::OK()`.  Output: the stored writer capability (`none` = NULL),
the status, and the file's contents after the call. -/
def Win32Env_NewWritableFile (fmt : FmtEnv) (fname : String)
    (file : Option (List Nat)) : Option Unit × Status × Option (List Nat) :=
  let r := CreateFileOS CreationDisposition.OPEN_EXISTING file
  if r.1 = false then
    (none, Win32IOError fname r.2.2 (fmt r.2.2), r.2.1)
  else
    (some (), Status.ok, r.2.1)

/-- One execution of the `while (fileFound)` loop of
`Win32Env::GetChildren` (env_win.cc lines 572-582), indexed by fuel.
`current` is the entry in `findFileData`, `pending` the entries
`FindNextFile` will still yield (after which it returns `FALSE`),
`result` the accumulated vector.  The source's `continue` statements
for `"."` and `".."` jump back to the loop condition WITHOUT calling
`FindNextFile`, so those branches recurse on the same entry; `none`
means the loop has not returned within `fuel` iterations. -/
def getChildrenLoop : Nat → String → List String → List String → Option (List String)
  | 0, _, _, _ => none
  | Nat.succ fuel, current, pending, result =>
    if current = "." then
      getChildrenLoop fuel current pending result
    else if current = ".." then
      getChildrenLoop fuel current pending result
    else
      match pending with
      | [] => some (result ++ [current])
      | next :: rest => getChildrenLoop fuel next rest (result ++ [current])

/-- Embedding of `Win32Env::GetChildren` (env_win.cc lines 556-587).
`result->clear()` is implicit (the accumulator starts empty).  The
environment's `FindFirstFile` outcome is `none` (an invalid handle,
with `errCode` the last error) or `some (first, rest)`: the first entry
plus the entries later `FindNextFile` calls yield.  Output `none` means
the call has not returned within `fuel` loop iterations. -/
def Win32Env_GetChildren (fuel : Nat) (fmt : FmtEnv) (dir : String)
    (findFirst : Option (String × List String)) (errCode : Int) :
    Option (Status × List String) :=
  match findFirst with
  | none => some (Win32IOError dir errCode (fmt errCode), [])
  | some (first, rest) =>
    match getChildrenLoop fuel first rest [] with
    | none => none
    | some files => some (Status.ok, files)

/-- On a `"."` or `".."` entry the `GetChildren` loop body `continue`s
without advancing the enumeration, so the loop never returns, for any
amount of fuel. -/
theorem getChildrenLoop_pseudo_entry (fuel : Nat) (pending result : List String) :
    getChildrenLoop fuel "." pending result = none ∧
    getChildrenLoop fuel ".." pending result = none := by
  induction fuel with
  | zero => exact ⟨rfl, rfl⟩
  | succ k ih =>
    refine ⟨?_, ?_⟩
    · simpa [getChildrenLoop] using ih.1
    · simpa [getChildrenLoop] using ih.2

/-- C1: refuted as stated — the claim says `NewWritableFile` truncates an
existing file and creates the file when none exists, but the source passes
`OPEN_EXISTING` to `CreateFile`: on an existing file with contents
`[1,2,3]` it returns success with a non-null writer while the prior
contents are left in place, and on an absent file it returns an IOError
instead of creating the file.  The last conjunct shows that the
disposition the claim describes (`CREATE_ALWAYS`) would have truncated
the file to empty. -/
theorem Win32Env_NewWritableFile_no_truncate_no_create :
    Win32Env_NewWritableFile (fun _ => none) "f" (some [1, 2, 3]) =
      (some (), Status.ok, some [1, 2, 3]) ∧
    Win32Env_NewWritableFile (fun _ => none) "f" none =
      (none, Status.ioError "f" "unknow system error 2", none) ∧
    (CreateFileOS CreationDisposition.CREATE_ALWAYS (some [1, 2, 3])).2.1 = some [] := by
  decide

/-- C2: refuted as stated — on a valid handle (here `5`) the first
`Close()` neither calls `CloseHandle` nor marks the handle invalid (the
guarding condition is inverted in the source); it does return success.
`CloseHandle` is instead invoked precisely when the handle is already
`INVALID_HANDLE_VALUE`. -/
theorem Win32WritableFile_Close_ignores_valid_handle :
    Win32WritableFile_Close 5 = (5, Status.ok, false) ∧
    Win32WritableFile_Close INVALID_HANDLE_VALUE =
      (INVALID_HANDLE_VALUE, Status.ok, true) := by
  decide

/-- C3 counterexample: with `data` of size `5`, a `WriteFile` call that
reports success but only `2` bytes written still makes `Append` return
`Status::OK()`, contradicting the claim that a short write yields a
non-OK status. -/
theorem Win32WritableFile_Append_short_write_counterexample :
    (2 : Nat) < 5 ∧
    Win32WritableFile_Append (fun _ => none) "f" 5 true 2 0 = Status.ok := by
  decide

/-- C3 amended: `Append` returns success exactly when the `WriteFile`
primitive reports success (`retCode = true`), regardless of how many
bytes the primitive reports written; when the primitive reports failure
the translated error is returned. -/
theorem Win32WritableFile_Append_ok_iff (fmt : FmtEnv) (filename : String)
    (dataSize : Nat) (retCode : Bool) (numberOfBytesWritten : Nat) (errCode : Int) :
    Win32WritableFile_Append fmt filename dataSize retCode numberOfBytesWritten errCode =
      Status.ok ↔ retCode = true := by
  cases retCode <;>
    simp [Win32WritableFile_Append, Win32IOError_ne_ok]

/-- C4 counterexample: when the `FlushFileBuffers` primitive fails
(`false`), `Sync` still returns `Status::OK()`, contradicting the claim
that an OS flush failure yields a non-OK status. -/
theorem Win32WritableFile_Sync_ignores_flush_failure :
    (Win32WritableFile_Sync false).1 = Status.ok := by
  decide

/-- C4 amended: `Sync()` invokes the `FlushFileBuffers` primitive and
returns success unconditionally — the primitive's result is discarded,
so the status does not depend on whether the flush succeeded. -/
theorem Win32WritableFile_Sync_always_ok (flushFileBuffersOk : Bool) :
    Win32WritableFile_Sync flushFileBuffersOk = (Status.ok, true) := rfl

/-- C5: on every execution of `Win32RandomAccessFile::Read` the event
trace begins by acquiring the guard, then repositions the shared cursor
to `offset` from start-of-file, then (exactly when the reposition
reported success) performs the read, and in all cases ends by releasing
the guard before returning — in particular on the reposition-failure
path the guard is released and the reposition's error status is the one
propagated. -/
theorem Win32RandomAccessFile_Read_guard_discipline (fmt : FmtEnv)
    (filename : String) (f : OsFile) (offset n : Nat) (readOk : Bool) :
    (Win32RandomAccessFile_Read fmt filename f offset n readOk).2.2.2 =
      (if (apiSetFilePointer fmt filename f offset MoveMethod.FILE_BEGIN).2 = Status.ok
       then [RafEvent.lock, RafEvent.setPointer offset MoveMethod.FILE_BEGIN,
             RafEvent.readCall, RafEvent.unlock]
       else [RafEvent.lock, RafEvent.setPointer offset MoveMethod.FILE_BEGIN,
             RafEvent.unlock]) ∧
    (Win32RandomAccessFile_Read fmt filename f offset n readOk).2.2.2.head? =
      some RafEvent.lock ∧
    (Win32RandomAccessFile_Read fmt filename f offset n readOk).2.2.2.getLast? =
      some RafEvent.unlock ∧
    (if (apiSetFilePointer fmt filename f offset MoveMethod.FILE_BEGIN).2 = Status.ok
     then True
     else (Win32RandomAccessFile_Read fmt filename f offset n readOk).2.1 =
       (apiSetFilePointer fmt filename f offset MoveMethod.FILE_BEGIN).2) := by
  by_cases h : (apiSetFilePointer fmt filename f offset MoveMethod.FILE_BEGIN).2 = Status.ok
  · simp only [Win32RandomAccessFile_Read, h, if_true]
    split <;>
      simp [List.getLast?_cons_cons, List.getLast?_singleton]
  · simp [Win32RandomAccessFile_Read, h, List.getLast?_cons_cons,
      List.getLast?_singleton]

/-- C6: refuted as stated (intent of the source's own contract comment) —
on a file of size `10` positioned at `0`, `Skip(20)` returns success but
leaves the cursor at `20`, beyond end-of-file, instead of clamping it to
`10`; and `Skip(0)` returns an IOError rather than success, because the
successful `SetFilePointer` return value `0` is misread as `FALSE`. -/
theorem Win32SequentialFile_Skip_not_clamped :
    ((Win32SequentialFile_Skip (fun _ => none) "f" ⟨0, 10, 0⟩ 20).1.pos = 20 ∧
     (Win32SequentialFile_Skip (fun _ => none) "f" ⟨0, 10, 0⟩ 20).2 = Status.ok) ∧
    (Win32SequentialFile_Skip (fun _ => none) "f" ⟨0, 10, 0⟩ 0).2 ≠ Status.ok := by
  decide

/-- C7: refuted as stated — `_apiSetFilePointer` misreports in both
directions.  A successful reposition to absolute position `0` (the OS
primitive returns the low dword of the new position, `0`, not the
failure sentinel) is reported as an error because the code compares the
returned position against `FALSE`; and a failed reposition (moving by
`-1`, encoded as offset `2^64 - 1`, from position `0`, on which the
primitive returns `INVALID_SET_FILE_POINTER`) is reported as success
because `0xFFFFFFFF ≠ 0`. -/
theorem apiSetFilePointer_misreports :
    ((SetFilePointerOS ⟨5, 100, 0⟩ (lodword 0) (hidword 0)
        MoveMethod.FILE_BEGIN).2 ≠ INVALID_SET_FILE_POINTER ∧
     (apiSetFilePointer (fun _ => none) "f" ⟨5, 100, 0⟩ 0
        MoveMethod.FILE_BEGIN).2 ≠ Status.ok) ∧
    ((SetFilePointerOS ⟨0, 100, 0⟩ (lodword (2 ^ 64 - 1)) (hidword (2 ^ 64 - 1))
        MoveMethod.FILE_CURRENT).2 = INVALID_SET_FILE_POINTER ∧
     (apiSetFilePointer (fun _ => none) "f" ⟨0, 100, 0⟩ (2 ^ 64 - 1)
        MoveMethod.FILE_CURRENT).2 = Status.ok) := by
  decide

/-- C8: refuted as stated — on a directory whose enumeration yields the
pseudo-entries first (as `FindFirstFile` on `dir\*.*` always does:
`"."`, then `".."`, then `"a.txt"`, `"b.txt"`), `GetChildren` never
returns, for any amount of fuel, because the `continue` for `"."` skips
the `FindNextFile` advance.  The failure path does behave as claimed
(translated error with the output cleared), and absent pseudo-entries
the loop does return exactly the entries. -/
theorem Win32Env_GetChildren_hangs_on_pseudo_entries (fuel : Nat) :
    Win32Env_GetChildren fuel (fun _ => none) "d"
      (some (".", ["..", "a.txt", "b.txt"])) 0 = none ∧
    Win32Env_GetChildren fuel (fun _ => none) "d" none 3 =
      some (Status.ioError "d" "unknow system error 3", []) ∧
    Win32Env_GetChildren 4 (fun _ => none) "d" (some ("a.txt", ["b.txt"])) 0 =
      some (Status.ok, ["a.txt", "b.txt"]) := by
  refine ⟨?_, rfl, by decide⟩
  simp [Win32Env_GetChildren,
    (getChildrenLoop_pseudo_entry fuel ["..", "a.txt", "b.txt"] []).1]

/-- C9 counterexample: for error code `4455` with no system message
available, the translator's detail message is
`"unknow system error 4455"` (as spelled in the source), which is not
of the claimed form `"unknown system error 4455"`. -/
theorem Win32IOError_fallback_spelling_counterexample :
    (Win32IOErrorEx "ctx" 4455 none).1 =
      Status.ioError "ctx" "unknow system error 4455" ∧
    Status.ioError "ctx" "unknow system error 4455" ≠
      Status.ioError "ctx" "unknown system error 4455" := by
  decide

/-- C9 amended: for every OS-native error code with no system message
available, the translator produces a failure status whose detail
message has exactly the form `"unknow system error <code>"` with the
decimal error code (the source's spelling, without the final `n` of
`unknown`), and no buffer release occurs (none was allocated); when a
system message is available, the status carries that message and the
OS-allocated buffer is released (`LocalFree`) before the translator
returns. -/
theorem Win32IOError_fallback_and_buffer_release (context : String)
    (code : Int) (m : String) :
    (Win32IOErrorEx context code none).1 =
      Status.ioError context ("unknow system error " ++ toString code) ∧
    (Win32IOErrorEx context code none).2 = false ∧
    (Win32IOErrorEx context code (some m)).1 = Status.ioError context m ∧
    (Win32IOErrorEx context code (some m)).2 = true :=
  ⟨rfl, rfl, rfl, rfl⟩

/-- C10: refuted as stated — the per-entry loop of `GetChildren` does
NOT advance to the next entry on every iteration: on a `"."` or `".."`
entry the `continue` statement jumps back to the loop condition without
calling `FindNextFile`, so the loop repeats on the same entry forever
(it fails to return within any amount of fuel, for every pending entry
list and every accumulated result). -/
theorem Win32Env_GetChildren_loop_no_progress (fuel : Nat)
    (pending result : List String) :
    getChildrenLoop fuel "." pending result = none ∧
    getChildrenLoop fuel ".." pending result = none :=
  getChildrenLoop_pseudo_entry fuel pending result

end leveldb
